import Mathlib

/-!
Verification of the command-construction and result-reporting logic of
ffmpeg_masterclass.py (class FFmpegMasterclass and the module-level main).

Each demo method builds an argument list for the external ffmpeg binary,
either literally (subprocess demos) or through the ffmpeg-python wrapper
(whose compile step is modelled here exactly for the stream graphs the
source constructs: input kwargs are rendered sorted by key before the -i
flag, output kwargs sorted by key with format and bitrates special-cased,
filter graphs rendered with bracketed stream labels, and the
overwrite_output node appending -y at the end).  Paths produced with
pathlib joins are modelled as dir ++ "/" ++ name.
-/

/-- Join of the output directory with a file name, modelling
str(self.output_dir / name) in the source for a directory written without a
trailing slash. -/
def outPath (dir name : String) : String := dir ++ "/" ++ name

/-- Number of occurrences of an element in a list. -/
def countOcc {α : Type} [DecidableEq α] : List α → α → Nat
  | [], _ => 0
  | a :: t, s => (if a = s then 1 else 0) + countOcc t s

/-- True when some element equal to "-i" is immediately followed by the
given string. -/
def afterI : List String → String → Bool
  | [], _ => false
  | [_], _ => false
  | a :: b :: t, s => (a == "-i" && b == s) || afterI (b :: t) s

/-- The input path occurs exactly once in the command and stands right
after an occurrence of the -i flag. -/
def inputOnce (cmd : List String) (inp : String) : Prop :=
  countOcc cmd inp = 1 ∧ afterI cmd inp = true

/-- Argument list built by demo_cli_basic_conversion (source lines 60-74),
verbatim from the Python list literal. -/
def demo_cli_basic_conversion_cmd (inputFile outputDir : String) : List String :=
  ["ffmpeg", "-i", inputFile, "-c:v", "libvpx-vp9", "-c:a", "libopus",
   "-b:v", "1M", "-b:a", "128k", "-y", outPath outputDir "converted_basic.webm"]

/-- The filter_complex literal of demo_cli_with_filters (source lines 108-113). -/
def demo_cli_with_filters_filterComplex : String :=
  "[0:v]scale=1280:720,drawtext=text=\x27FFmpeg Demo\x27:fontsize=48:fontcolor=white:x=(w-text_w)/2:y=50:box=1:boxcolor=black@0.5:boxborderw=5,eq=contrast=1.2:brightness=0.1[v]"

/-- Argument list built by demo_cli_with_filters (source lines 115-135). -/
def demo_cli_with_filters_cmd (inputFile outputDir : String) : List String :=
  ["ffmpeg", "-i", inputFile, "-filter_complex", demo_cli_with_filters_filterComplex,
   "-map", "[v]", "-map", "0:a?", "-c:v", "libx264", "-preset", "medium",
   "-crf", "23", "-c:a", "aac", "-y", outPath outputDir "filtered_cli.mp4"]

/-- Argument list built by demo_cli_extract_audio (source lines 161-172). -/
def demo_cli_extract_audio_cmd (inputFile outputDir : String) : List String :=
  ["ffmpeg", "-i", inputFile, "-vn", "-acodec", "libmp3lame", "-q:a", "2",
   "-y", outPath outputDir "extracted_audio.mp3"]

/-- Command compiled by ffmpeg-python for demo_ffmpeg_python_basic (source
lines 197-214): input node, output node with vcodec, acodec, video_bitrate,
audio_bitrate and preset kwargs, and the overwrite_output global node.  The
compile step special-cases video_bitrate and audio_bitrate into -b:v and
-b:a before the remaining kwargs, which are rendered sorted by key. -/
def demo_ffmpeg_python_basic_cmd (inputFile outputDir : String) : List String :=
  ["ffmpeg", "-i", inputFile, "-b:v", "2M", "-b:a", "192k",
   "-acodec", "aac", "-preset", "medium", "-vcodec", "libx264",
   outPath outputDir "converted_python.mp4", "-y"]

/-- Filter graph compiled for demo_ffmpeg_python_filters (source lines
285-293): scale, fps, eq and hue filter nodes in chain, filter kwargs
rendered sorted by key. -/
def demo_ffmpeg_python_filters_filterComplex : String :=
  "[0]scale=1280:720[s0];[s0]fps=fps=30[s1];[s1]eq=brightness=0.05:contrast=1.1[s2];[s2]hue=h=10[s3]"

/-- Command compiled by ffmpeg-python for demo_ffmpeg_python_filters
(source lines 285-293). -/
def demo_ffmpeg_python_filters_cmd (inputFile outputDir : String) : List String :=
  ["ffmpeg", "-i", inputFile, "-filter_complex", demo_ffmpeg_python_filters_filterComplex,
   "-map", "[s3]", "-acodec", "aac", "-crf", "23", "-vcodec", "libx264",
   outPath outputDir "filtered_python.mp4", "-y"]

/-- Command compiled by ffmpeg-python for demo_ffmpeg_python_trim (source
lines 321-331): the ss and t kwargs of the input node are rendered sorted
by key before -i, each value through str; the source passes integers, so
the values are modelled as Int rendered in decimal. -/
def demo_ffmpeg_python_trim_cmd (inputFile : String) (start duration : Int)
    (outputDir : String) : List String :=
  ["ffmpeg", "-ss", toString start, "-t", toString duration, "-i", inputFile,
   "-acodec", "copy", "-vcodec", "copy", outPath outputDir "trimmed.mp4", "-y"]

/-- Filter expression compiled for the concat node of
demo_ffmpeg_python_concat at a given number of input streams: bracketed
input labels, then concat with kwargs a, n and v sorted by key, where the
library sets n to the stream count divided by the per-segment stream count
(v=1 plus a=1 gives 2). -/
def concatFilterSpec (n : Nat) : String :=
  String.join ((List.range n).map (fun i => "[" ++ toString i ++ "]")) ++
    "concat=a=1:n=" ++ toString (n / 2) ++ ":v=1[s0]"

/-- Arguments of the concat command that follow the input files. -/
def concatTail (n : Nat) (outputDir : String) : List String :=
  ["-filter_complex", concatFilterSpec n, "-map", "[s0]",
   "-acodec", "aac", "-vcodec", "libx264",
   outPath outputDir "concatenated.mp4", "-y"]

/-- Command compiled by ffmpeg-python for demo_ffmpeg_python_concat (source
lines 352-363).  The library raises ValueError when the number of supplied
streams is not a multiple of the per-segment stream count, and the compile
step fails on zero inputs; both are modelled as none. -/
def demo_ffmpeg_python_concat_cmd (inputFiles : List String) (outputDir : String) :
    Option (List String) :=
  if inputFiles.length ≠ 0 ∧ inputFiles.length % 2 = 0 then
    some (["ffmpeg"] ++ inputFiles.flatMap (fun f => ["-i", f]) ++
      concatTail inputFiles.length outputDir)
  else none

/-- Filter graph compiled for demo_ffmpeg_python_overlay (source lines
384-397): the overlay input is scaled, then overlaid on the base input. -/
def demo_ffmpeg_python_overlay_filterComplex : String :=
  "[1]scale=iw/4:ih/4[s0];[0][s0]overlay=x=W-w-10:y=H-h-10[s1]"

/-- Command compiled by ffmpeg-python for demo_ffmpeg_python_overlay
(source lines 384-397). -/
def demo_ffmpeg_python_overlay_cmd (baseVideo overlayVideo outputDir : String) :
    List String :=
  ["ffmpeg", "-i", baseVideo, "-i", overlayVideo,
   "-filter_complex", demo_ffmpeg_python_overlay_filterComplex,
   "-map", "[s1]", "-acodec", "aac", "-vcodec", "libx264",
   outPath outputDir "overlay.mp4", "-y"]

/-- Command compiled by ffmpeg-python for demo_extract_frames (source lines
426-431): an fps filter whose rate is the caller-supplied integer, and an
image2 output inside the frames subdirectory. -/
def demo_extract_frames_cmd (inputFile : String) (fps : Nat) (outputDir : String) :
    List String :=
  ["ffmpeg", "-i", inputFile,
   "-filter_complex", "[0]fps=fps=" ++ toString fps ++ "[s0]", "-map", "[s0]",
   "-f", "image2", "-vcodec", "png",
   outPath (outPath outputDir "frames") "frame_%04d.png", "-y"]

/-- Command compiled by ffmpeg-python for demo_create_video_from_images
(source lines 452-455): the framerate and pattern_type kwargs of the input
node are rendered sorted by key before -i. -/
def demo_create_video_from_images_cmd (imagePattern : String) (fps : Nat)
    (outputDir : String) : List String :=
  ["ffmpeg", "-framerate", toString fps, "-pattern_type", "glob", "-i", imagePattern,
   "-crf", "20", "-pix_fmt", "yuv420p", "-vcodec", "libx264",
   outPath outputDir "from_images.mp4", "-y"]

/-- Command compiled by ffmpeg-python for demo_add_audio_to_video (source
lines 477-487): the video stream of the first input and the audio stream of
the second are mapped, and the shortest kwarg with value None renders as a
bare flag. -/
def demo_add_audio_to_video_cmd (videoFile audioFile outputDir : String) :
    List String :=
  ["ffmpeg", "-i", videoFile, "-i", audioFile, "-map", "0:v", "-map", "1:a",
   "-acodec", "aac", "-shortest", "-vcodec", "copy",
   outPath outputDir "with_audio.mp4", "-y"]

/-- Command compiled by ffmpeg-python for demo_create_gif (source lines
509-515). -/
def demo_create_gif_cmd (inputFile : String) (start duration : Int)
    (outputDir : String) : List String :=
  ["ffmpeg", "-ss", toString start, "-t", toString duration, "-i", inputFile,
   "-filter_complex", "[0]fps=fps=10[s0];[s0]scale=480:-1[s1]", "-map", "[s1]",
   "-f", "gif", outPath outputDir "output.gif", "-y"]

/-- Command compiled by ffmpeg-python for demo_streaming_hls (source lines
540-552): hls format output with its kwargs rendered sorted by key. -/
def demo_streaming_hls_cmd (inputFile outputDir : String) : List String :=
  ["ffmpeg", "-i", inputFile, "-f", "hls",
   "-acodec", "aac", "-hls_list_size", "0", "-hls_time", "10",
   "-start_number", "0", "-vcodec", "libx264",
   outPath (outPath outputDir "hls") "playlist.m3u8", "-y"]

/-- Command compiled by ffmpeg-python for demo_watermark (source lines
575-582). -/
def demo_watermark_cmd (inputFile watermarkImage outputDir : String) : List String :=
  ["ffmpeg", "-i", inputFile, "-i", watermarkImage,
   "-filter_complex", "[0][1]overlay=x=W-w-10:y=10[s0]", "-map", "[s0]",
   "-acodec", "copy", "-vcodec", "libx264",
   outPath outputDir "watermarked.mp4", "-y"]

/-- Command compiled by ffmpeg-python for demo_audio_visualization (source
lines 603-610). -/
def demo_audio_visualization_cmd (audioFile outputDir : String) : List String :=
  ["ffmpeg", "-i", audioFile,
   "-filter_complex", "[0]showwaves=colors=blue:mode=line:s=1280x720[s0]",
   "-map", "[s0]", "-acodec", "aac", "-pix_fmt", "yuv420p", "-vcodec", "libx264",
   outPath outputDir "audio_viz.mp4", "-y"]

/-- Exit status and captured output of a completed external process. -/
structure ProcResult where
  returncode : Nat
  stdout : String
  stderr : String
deriving DecidableEq

/-- Outcome of launching the external binary: it either ran to completion
or the binary was absent (FileNotFoundError). -/
inductive RunOutcome where
  | completed (r : ProcResult)
  | notFound
deriving DecidableEq

/-- Rendering of a Python string inside the repr of a list (quotes around
the text; escaping of special characters inside the text is not needed for
the arguments at hand). -/
def pyStrRepr (s : String) : String := "\x27" ++ s ++ "\x27"

/-- Rendering of the Python repr of a list of strings. -/
def pyListRepr (l : List String) : String :=
  "[" ++ String.intercalate ", " (l.map pyStrRepr) ++ "]"

/-- Text of str(subprocess.CalledProcessError(returncode, cmd)): the
command and the exit status, with no standard-error content. -/
def calledProcessErrorMsg (cmd : List String) (returncode : Nat) : String :=
  "Command " ++ pyStrRepr (pyListRepr cmd) ++
    " returned non-zero exit status " ++ toString returncode ++ "."

/-- Console report of demo_cli_basic_conversion (source lines 78-92): the
returncode is tested directly and the failure branch prints the captured
stderr text. -/
def demo_cli_basic_conversion_report (outputDir : String) : RunOutcome → String
  | .completed r =>
      if r.returncode = 0 then
        "✓ Success! Output: " ++ outPath outputDir "converted_basic.webm"
      else "✗ Error: " ++ r.stderr
  | .notFound => "✗ ffmpeg not found! Please install ffmpeg first."

/-- Console report of demo_cli_with_filters (source lines 143-149): run
with check=True, the CalledProcessError branch prints the decoded stderr of
the exception. -/
def demo_cli_with_filters_report (outputDir : String) : RunOutcome → String
  | .completed r =>
      if r.returncode = 0 then
        "✓ Success! Output: " ++ outPath outputDir "filtered_cli.mp4" ++ "\n"
      else "✗ Error: " ++ r.stderr ++ "\n"
  | .notFound => "✗ ffmpeg not found!\n"

/-- Console report of demo_cli_extract_audio (source lines 176-180): run
with check=True, but the handler catches the plain Exception and prints
str(e), which for a CalledProcessError is the generic command-and-status
line without the stderr text. -/
def demo_cli_extract_audio_report (inputFile outputDir : String) :
    RunOutcome → String
  | .completed r =>
      if r.returncode = 0 then
        "✓ Success! Output: " ++ outPath outputDir "extracted_audio.mp3" ++ "\n"
      else
        "✗ Error: " ++ calledProcessErrorMsg
          (demo_cli_extract_audio_cmd inputFile outputDir) r.returncode ++ "\n"
  | .notFound => "✗ Error: [Errno 2] No such file or directory: \x27ffmpeg\x27\n"

/-- Console report of demo_ffmpeg_python_basic (source lines 218-222): the
ffmpeg.Error branch prints the decoded stderr payload of the exception. -/
def demo_ffmpeg_python_basic_report (outputDir : String) (r : ProcResult) : String :=
  if r.returncode = 0 then
    "✓ Success! Output: " ++ outPath outputDir "converted_python.mp4" ++ "\n"
  else "✗ FFmpeg error: " ++ r.stderr ++ "\n"

/-- Failure report shared by the remaining ffmpeg-python demos (demos 6
through 16): each except branch prints the decoded stderr payload of the
ffmpeg.Error exception. -/
def ffmpeg_python_demo_error_report (r : ProcResult) : String :=
  "✗ Error: " ++ r.stderr ++ "\n"

/-- Execution environment for launching the external tool: whether the
ffmpeg binary can be found at all, and the exit status its version command
reports when it can. -/
structure ExecEnv where
  ffmpegInstalled : Bool
  versionExitCode : Nat
deriving DecidableEq

/-- Model of check_ffmpeg_installed (source lines 644-652): run ffmpeg
-version capturing output; a FileNotFoundError (absent binary) is caught
and turned into False, otherwise the result is the test returncode == 0.
The function is total into Bool, so no error propagates. -/
def check_ffmpeg_installed (env : ExecEnv) : Bool :=
  if env.ffmpegInstalled then decide (env.versionExitCode = 0) else false

/-- Observable effects of the script: directory creation, console output,
launching an external process, and reading or writing an output file. -/
inductive Effect where
  | mkdirDir (path : String)
  | consoleOut (msg : String)
  | runExternal (cmd : List String)
  | readOutputFile (path : String)
  | writeOutputFile (path : String)
deriving DecidableEq

/-- The warning printed by main when the external tool is missing. -/
def notInstalledMsg : String := "⚠ FFmpeg is not installed or not in PATH!"

/-- Effect trace of main (source lines 655-736): print the banner,
construct the FFmpegMasterclass (which creates the output directory and
prints its location), run the installation check, then either print the
single not-installed warning block and return, or print the usage text.  No
demo operation is invoked by main in either branch, so the trace contains
no file reads or writes; console text other than the warning is condensed
to representative lines. -/
def mainEffects (env : ExecEnv) : List Effect :=
  [Effect.consoleOut "FFmpeg Masterclass",
   Effect.mkdirDir "ffmpeg_output",
   Effect.consoleOut "Output directory: ffmpeg_output",
   Effect.runExternal ["ffmpeg", "-version"]] ++
  (if check_ffmpeg_installed env then
     [Effect.consoleOut "✓ FFmpeg is installed and ready!",
      Effect.consoleOut "USAGE EXAMPLES:",
      Effect.consoleOut "All outputs will be saved to: ./ffmpeg_output/"]
   else
     [Effect.consoleOut notInstalledMsg,
      Effect.consoleOut "Installation instructions"])

/-- Directories and plain files existing in the file system. -/
structure FileSystem where
  dirs : List String
  files : List String
deriving DecidableEq

/-- Outcome of a directory-creation call. -/
inductive MkdirResult where
  | ok (fs : FileSystem)
  | error (msg : String)
deriving DecidableEq

/-- Model of Path.mkdir(exist_ok=True) as used in FFmpegMasterclass.__init__
(source lines 38-42): an existing directory is left alone without error, an
existing plain file of the same name still raises, and otherwise the
directory is created.  The parent of the default single-segment path is the
working directory, so parent creation is not modelled. -/
def mkdirExistOk (fs : FileSystem) (p : String) : MkdirResult :=
  if p ∈ fs.dirs then .ok fs
  else if p ∈ fs.files then .error "FileExistsError"
  else .ok ⟨p :: fs.dirs, fs.files⟩

/-- Model of constructing FFmpegMasterclass: its only file-system action is
creating the output directory with exist_ok=True. -/
def ffmpegMasterclassInit (fs : FileSystem) (outputDir : String) : MkdirResult :=
  mkdirExistOk fs outputDir

/-- Fields of the format record of a probe result that demo 5 reads. -/
structure ProbeFormat where
  format_long_name : String
  duration : String
  size : String
  bit_rate : String
deriving DecidableEq

/-- Fields of one stream record of a probe result that the source reads;
optional fields are looked up with a default. -/
structure ProbeStream where
  codec_type : String
  codec_name : String
  width : Nat
  height : Nat
  r_frame_rate : Option String
  pix_fmt : Option String
  sample_rate : String
  channels : Nat
  bit_rate : Option String
deriving DecidableEq

/-- Parsed structured output of ffmpeg.probe: a format record and the
stream records in their original order. -/
structure ProbeData where
  format : ProbeFormat
  streams : List ProbeStream
deriving DecidableEq

/-- Split a character list at the first slash, when one occurs. -/
def splitFraction : List Char → Option (List Char × List Char)
  | [] => none
  | c :: t =>
    if c = '/' then some ([], t)
    else
      match splitFraction t with
      | some (a, b) => some (c :: a, b)
      | none => none

/-- Decimal digits to a natural number; none on an empty or non-digit
sequence. -/
def digitsToNat : List Char → Option Nat
  | [] => none
  | cs =>
    cs.foldl
      (fun acc c =>
        match acc with
        | none => none
        | some n => if c.isDigit then some (n * 10 + (c.toNat - 48)) else none)
      (some 0)

/-- Decimal integer with an optional leading minus sign. -/
def parseInt : List Char → Option Int
  | '-' :: t => (digitsToNat t).map (fun n => -(n : Int))
  | cs => (digitsToNat cs).map (fun n => (n : Int))

/-- Model of the eval(...) applied by demo_ffmpeg_python_probe (source line
256) to the frame-rate string, restricted to the integer and
integer-fraction expressions the probe returns.  A fraction with
denominator zero evaluates to none, modelling the ZeroDivisionError the
eval raises; anything outside the grammar is likewise none. -/
def evalFractionString (s : String) : Option Rat :=
  match splitFraction s.data with
  | none => (parseInt s.data).map (fun x => (x : Rat))
  | some (a, b) =>
    match parseInt a, parseInt b with
    | some x, some y => if y = 0 then none else some ((x : Rat) / (y : Rat))
    | _, _ => none

/-- Console lines of the file-information block of demo 5, by key lookup in
the format record (numeric display formatting abstracted to the raw field
text). -/
def probeFormatLines (f : ProbeFormat) : List String :=
  ["Format: " ++ f.format_long_name, "Duration: " ++ f.duration,
   "Size: " ++ f.size, "Bitrate: " ++ f.bit_rate]

/-- Console lines of the video-stream block of demo 5. -/
def probeVideoLines (v : ProbeStream) (fps : Rat) : List String :=
  ["Codec: " ++ v.codec_name,
   "Resolution: " ++ toString v.width ++ "x" ++ toString v.height,
   "FPS: " ++ toString fps,
   "Pixel Format: " ++ v.pix_fmt.getD "N/A"]

/-- Console lines of the audio-stream block of demo 5, when an audio stream
exists. -/
def probeAudioLines : Option ProbeStream → List String
  | none => []
  | some a =>
      ["Codec: " ++ a.codec_name, "Sample Rate: " ++ a.sample_rate ++ " Hz",
       "Channels: " ++ toString a.channels,
       "Bitrate: " ++ a.bit_rate.getD "0"]

/-- Model of demo_ffmpeg_python_probe (source lines 224-271): pick the
first video and the first audio stream, then display fields by key lookup;
the frame-rate line evaluates the fraction string, and a failing evaluation
aborts the whole display (none), modelling the uncaught exception. -/
def demo_ffmpeg_python_probe_display (p : ProbeData) : Option (List String) :=
  match p.streams.find? (fun s => s.codec_type == "video") with
  | none =>
      some (probeFormatLines p.format ++
        probeAudioLines (p.streams.find? (fun s => s.codec_type == "audio")))
  | some v =>
      match evalFractionString (v.r_frame_rate.getD "0/1") with
      | none => none
      | some fps =>
          some (probeFormatLines p.format ++ probeVideoLines v fps ++
            probeAudioLines (p.streams.find? (fun s => s.codec_type == "audio")))

/-- Return value of get_video_info: the empty dictionary on a probe error,
or the format record with the three stream lists. -/
inductive VideoInfo where
  | empty
  | info (format : ProbeFormat)
      (video_streams audio_streams subtitle_streams : List ProbeStream)
deriving DecidableEq

/-- Model of get_video_info (source lines 624-642): the probe either
raised ffmpeg.Error (none), in which case the empty dictionary is
returned after printing, or produced data, in which case the format record
is returned together with the three comprehensions that keep the streams
whose codec_type is video, audio and subtitle respectively. -/
def get_video_info : Option ProbeData → VideoInfo
  | none => .empty
  | some p =>
      .info p.format
        (p.streams.filter (fun s => s.codec_type == "video"))
        (p.streams.filter (fun s => s.codec_type == "audio"))
        (p.streams.filter (fun s => s.codec_type == "subtitle"))

/-- C1: the extract-audio request for an input path yields exactly the
argument sequence -i input -vn -acodec libmp3lame -q:a 2 -y output.mp3, the
flags in this order, the input right after -i, and the mp3 output path
last. -/
theorem extract_audio_request_argument_order (inputFile outputDir : String) :
    demo_cli_extract_audio_cmd inputFile outputDir =
      ["ffmpeg"] ++ ["-i", inputFile] ++ ["-vn"] ++ ["-acodec", "libmp3lame"] ++
        ["-q:a", "2"] ++ ["-y"] ++ [outPath outputDir "extracted_audio.mp3"] ∧
    (demo_cli_extract_audio_cmd inputFile outputDir).getLast? =
      some (outPath outputDir "extracted_audio.mp3") ∧
    ".mp3".data <:+ (outPath outputDir "extracted_audio.mp3").data := by
  refine ⟨rfl, rfl, ?_⟩
  unfold outPath
  rw [String.data_append]
  have h : ".mp3".data <:+ "extracted_audio.mp3".data :=
    ⟨"extracted_audio".data, rfl⟩
  exact h.trans (List.suffix_append _ _)

/-- C3: caller-supplied numeric parameters reach the argument sequence as
their unchanged decimal rendering: the trim command carries the start value
right after -ss and the duration right after -t, the image-sequence command
carries the frame rate right after -framerate, the frame-extraction command
carries the frame rate inside its fps filter expression, and the GIF
command carries its start and duration after -ss and -t. -/
theorem numeric_params_rendered_literally (inputFile imagePattern outputDir : String)
    (start duration gifStart gifDuration : Int) (fps frameFps : Nat) :
    (demo_ffmpeg_python_trim_cmd inputFile start duration outputDir)[1]? = some "-ss" ∧
    (demo_ffmpeg_python_trim_cmd inputFile start duration outputDir)[2]? =
      some (toString start) ∧
    (demo_ffmpeg_python_trim_cmd inputFile start duration outputDir)[3]? = some "-t" ∧
    (demo_ffmpeg_python_trim_cmd inputFile start duration outputDir)[4]? =
      some (toString duration) ∧
    (demo_create_video_from_images_cmd imagePattern fps outputDir)[1]? =
      some "-framerate" ∧
    (demo_create_video_from_images_cmd imagePattern fps outputDir)[2]? =
      some (toString fps) ∧
    (demo_extract_frames_cmd inputFile frameFps outputDir)[4]? =
      some ("[0]fps=fps=" ++ toString frameFps ++ "[s0]") ∧
    (demo_create_gif_cmd inputFile gifStart gifDuration outputDir)[1]? = some "-ss" ∧
    (demo_create_gif_cmd inputFile gifStart gifDuration outputDir)[2]? =
      some (toString gifStart) ∧
    (demo_create_gif_cmd inputFile gifStart gifDuration outputDir)[3]? = some "-t" ∧
    (demo_create_gif_cmd inputFile gifStart gifDuration outputDir)[4]? =
      some (toString gifDuration) :=
  ⟨rfl, rfl, rfl, rfl, rfl, rfl, rfl, rfl, rfl, rfl, rfl⟩

theorem countOcc_append {α : Type} [DecidableEq α] (l₁ l₂ : List α) (s : α) :
    countOcc (l₁ ++ l₂) s = countOcc l₁ s + countOcc l₂ s := by
  induction l₁ with
  | nil => simp [countOcc]
  | cons a t ih => simp [countOcc, ih, Nat.add_assoc]

theorem countOcc_eq_zero {α : Type} [DecidableEq α] {l : List α} {s : α}
    (h : s ∉ l) : countOcc l s = 0 := by
  induction l with
  | nil => rfl
  | cons a t ih =>
    simp only [List.mem_cons, not_or] at h
    have hne : ¬ a = s := fun e => h.1 (Eq.symm e)
    simp [countOcc, ih h.2, hne]

theorem countOcc_nodup_mem {α : Type} [DecidableEq α] {l : List α} {s : α}
    (hn : l.Nodup) (h : s ∈ l) : countOcc l s = 1 := by
  induction l with
  | nil => cases h
  | cons a t ih =>
    rw [List.nodup_cons] at hn
    rcases List.mem_cons.mp h with h1 | h2
    · subst h1
      simp [countOcc, countOcc_eq_zero hn.1]
    · have hne : a ≠ s := fun e => hn.1 (e ▸ h2)
      simp [countOcc, hne, ih hn.2 h2]

theorem afterI_cons (t : List String) (a s : String) (h : afterI t s = true) :
    afterI (a :: t) s = true := by
  cases t with
  | nil => simp [afterI] at h
  | cons b t' => simp [afterI, h]

theorem afterI_append (s : List String) {t : List String} {f : String}
    (h : afterI t f = true) : afterI (s ++ t) f = true := by
  induction s with
  | nil => simpa using h
  | cons a s' ih => exact afterI_cons _ a f ih

theorem inputOnce_shape (pre post : List String) (inp : String)
    (h : inp ∉ pre ++ "-i" :: post) :
    inputOnce (pre ++ "-i" :: inp :: post) inp := by
  have h1 : inp ∉ pre := fun m => h (List.mem_append_left _ m)
  have h2 : inp ≠ "-i" := fun e => h (List.mem_append_right _ (by simp [e]))
  have h3 : inp ∉ post := fun m => h (List.mem_append_right _ (List.mem_cons_of_mem _ m))
  constructor
  · rw [countOcc_append, countOcc_eq_zero h1]
    have h2x : ¬ "-i" = inp := fun e => h2 (Eq.symm e)
    simp [countOcc, countOcc_eq_zero h3, h2x]
  · apply afterI_append
    simp [afterI]

theorem inputOnce_pair (rest : List String) (b o : String) (hne : b ≠ o)
    (hb : b ∉ ("ffmpeg" :: "-i" :: rest)) (ho : o ∉ ("ffmpeg" :: "-i" :: rest)) :
    inputOnce ("ffmpeg" :: "-i" :: b :: "-i" :: o :: rest) b ∧
    inputOnce ("ffmpeg" :: "-i" :: b :: "-i" :: o :: rest) o := by
  simp only [List.mem_cons, not_or] at hb ho
  constructor
  · apply inputOnce_shape ["ffmpeg"] ("-i" :: o :: rest) b
    simp only [List.cons_append, List.nil_append, List.mem_cons, not_or]
    exact ⟨hb.1, hb.2.1, hb.2.1, hne, hb.2.2⟩
  · apply inputOnce_shape ["ffmpeg", "-i", b] rest o
    simp only [List.cons_append, List.nil_append, List.mem_cons, not_or]
    exact ⟨ho.1, ho.2.1, fun e => hne (Eq.symm e), ho.2.1, ho.2.2⟩

theorem countOcc_flatMap_i (files : List String) {f : String} (h : f ≠ "-i") :
    countOcc (files.flatMap (fun g => ["-i", g])) f = countOcc files f := by
  induction files with
  | nil => rfl
  | cons g t ih =>
    simp only [List.flatMap_cons, List.cons_append, List.nil_append]
    have hx : ¬ "-i" = f := fun e => h (Eq.symm e)
    simp [countOcc, ih, hx, Nat.add_assoc]

theorem afterI_flatMap_mem (files : List String) (tail : List String) {f : String}
    (h : f ∈ files) :
    afterI (files.flatMap (fun g => ["-i", g]) ++ tail) f = true := by
  induction files with
  | nil => cases h
  | cons g t ih =>
    simp only [List.flatMap_cons, List.cons_append, List.nil_append, List.append_assoc]
    rcases List.mem_cons.mp h with h1 | h2
    · simp [afterI, h1]
    · have h3 := afterI_cons _ g f (ih h2)
      simp only [afterI]
      rw [h3]
      simp

/-- C2 counterexample: an input path that coincides with a fixed argument
string, here -y, occurs twice in the constructed extract-audio command, so
the claim that the caller-supplied input path occurs exactly once for every
input path is false as stated. -/
theorem input_path_collision_counterexample :
    ¬ inputOnce (demo_cli_extract_audio_cmd "-y" "ffmpeg_output") "-y" :=
  fun h => absurd h.1 (by decide)

/-- C2 (amended): for every supported operation, an input path that differs
from all the fixed argument strings of the invocation (and, for the
multi-input operations, from the other supplied paths, which must be
pairwise distinct) occurs exactly once in the constructed argument
sequence, immediately after the -i input flag. -/
theorem input_path_appears_once_amended :
    (∀ inp dir : String, inp ∉ ["ffmpeg", "-i", "-c:v", "libvpx-vp9", "-c:a",
        "libopus", "-b:v", "1M", "-b:a", "128k", "-y",
        outPath dir "converted_basic.webm"] →
      inputOnce (demo_cli_basic_conversion_cmd inp dir) inp) ∧
    (∀ inp dir : String, inp ∉ ["ffmpeg", "-i", "-filter_complex",
        demo_cli_with_filters_filterComplex, "-map", "[v]", "-map", "0:a?",
        "-c:v", "libx264", "-preset", "medium", "-crf", "23", "-c:a", "aac",
        "-y", outPath dir "filtered_cli.mp4"] →
      inputOnce (demo_cli_with_filters_cmd inp dir) inp) ∧
    (∀ inp dir : String, inp ∉ ["ffmpeg", "-i", "-vn", "-acodec", "libmp3lame",
        "-q:a", "2", "-y", outPath dir "extracted_audio.mp3"] →
      inputOnce (demo_cli_extract_audio_cmd inp dir) inp) ∧
    (∀ inp dir : String, inp ∉ ["ffmpeg", "-i", "-b:v", "2M", "-b:a", "192k",
        "-acodec", "aac", "-preset", "medium", "-vcodec", "libx264",
        outPath dir "converted_python.mp4", "-y"] →
      inputOnce (demo_ffmpeg_python_basic_cmd inp dir) inp) ∧
    (∀ inp dir : String, inp ∉ ["ffmpeg", "-i", "-filter_complex",
        demo_ffmpeg_python_filters_filterComplex, "-map", "[s3]", "-acodec",
        "aac", "-crf", "23", "-vcodec", "libx264",
        outPath dir "filtered_python.mp4", "-y"] →
      inputOnce (demo_ffmpeg_python_filters_cmd inp dir) inp) ∧
    (∀ (inp dir : String) (s d : Int), inp ∉ ["ffmpeg", "-ss", toString s,
        "-t", toString d, "-i", "-acodec", "copy", "-vcodec", "copy",
        outPath dir "trimmed.mp4", "-y"] →
      inputOnce (demo_ffmpeg_python_trim_cmd inp s d dir) inp) ∧
    (∀ (files : List String) (dir : String) (c : List String) (f : String),
        demo_ffmpeg_python_concat_cmd files dir = some c → files.Nodup →
        f ∈ files → f ∉ ("ffmpeg" :: "-i" :: concatTail files.length dir) →
      inputOnce c f) ∧
    (∀ b o dir : String, b ≠ o →
        b ∉ ("ffmpeg" :: "-i" :: ["-filter_complex",
          demo_ffmpeg_python_overlay_filterComplex, "-map", "[s1]", "-acodec",
          "aac", "-vcodec", "libx264", outPath dir "overlay.mp4", "-y"]) →
        o ∉ ("ffmpeg" :: "-i" :: ["-filter_complex",
          demo_ffmpeg_python_overlay_filterComplex, "-map", "[s1]", "-acodec",
          "aac", "-vcodec", "libx264", outPath dir "overlay.mp4", "-y"]) →
      inputOnce (demo_ffmpeg_python_overlay_cmd b o dir) b ∧
      inputOnce (demo_ffmpeg_python_overlay_cmd b o dir) o) ∧
    (∀ (inp dir : String) (fps : Nat), inp ∉ ["ffmpeg", "-i",
        "-filter_complex", "[0]fps=fps=" ++ toString fps ++ "[s0]", "-map", "[s0]",
        "-f", "image2", "-vcodec", "png",
        outPath (outPath dir "frames") "frame_%04d.png", "-y"] →
      inputOnce (demo_extract_frames_cmd inp fps dir) inp) ∧
    (∀ (inp dir : String) (fps : Nat), inp ∉ ["ffmpeg", "-framerate",
        toString fps, "-pattern_type", "glob", "-i", "-crf", "20", "-pix_fmt",
        "yuv420p", "-vcodec", "libx264", outPath dir "from_images.mp4", "-y"] →
      inputOnce (demo_create_video_from_images_cmd inp fps dir) inp) ∧
    (∀ b o dir : String, b ≠ o →
        b ∉ ("ffmpeg" :: "-i" :: ["-map", "0:v", "-map", "1:a", "-acodec",
          "aac", "-shortest", "-vcodec", "copy", outPath dir "with_audio.mp4",
          "-y"]) →
        o ∉ ("ffmpeg" :: "-i" :: ["-map", "0:v", "-map", "1:a", "-acodec",
          "aac", "-shortest", "-vcodec", "copy", outPath dir "with_audio.mp4",
          "-y"]) →
      inputOnce (demo_add_audio_to_video_cmd b o dir) b ∧
      inputOnce (demo_add_audio_to_video_cmd b o dir) o) ∧
    (∀ (inp dir : String) (s d : Int), inp ∉ ["ffmpeg", "-ss", toString s,
        "-t", toString d, "-i", "-filter_complex",
        "[0]fps=fps=10[s0];[s0]scale=480:-1[s1]", "-map", "[s1]", "-f", "gif",
        outPath dir "output.gif", "-y"] →
      inputOnce (demo_create_gif_cmd inp s d dir) inp) ∧
    (∀ inp dir : String, inp ∉ ["ffmpeg", "-i", "-f", "hls", "-acodec", "aac",
        "-hls_list_size", "0", "-hls_time", "10", "-start_number", "0",
        "-vcodec", "libx264", outPath (outPath dir "hls") "playlist.m3u8",
        "-y"] →
      inputOnce (demo_streaming_hls_cmd inp dir) inp) ∧
    (∀ b o dir : String, b ≠ o →
        b ∉ ("ffmpeg" :: "-i" :: ["-filter_complex",
          "[0][1]overlay=x=W-w-10:y=10[s0]", "-map", "[s0]", "-acodec", "copy",
          "-vcodec", "libx264", outPath dir "watermarked.mp4", "-y"]) →
        o ∉ ("ffmpeg" :: "-i" :: ["-filter_complex",
          "[0][1]overlay=x=W-w-10:y=10[s0]", "-map", "[s0]", "-acodec", "copy",
          "-vcodec", "libx264", outPath dir "watermarked.mp4", "-y"]) →
      inputOnce (demo_watermark_cmd b o dir) b ∧
      inputOnce (demo_watermark_cmd b o dir) o) ∧
    (∀ inp dir : String, inp ∉ ["ffmpeg", "-i", "-filter_complex",
        "[0]showwaves=colors=blue:mode=line:s=1280x720[s0]", "-map", "[s0]",
        "-acodec", "aac", "-pix_fmt", "yuv420p", "-vcodec", "libx264",
        outPath dir "audio_viz.mp4", "-y"] →
      inputOnce (demo_audio_visualization_cmd inp dir) inp) := by
  refine ⟨?_, ?_, ?_, ?_, ?_, ?_, ?_, ?_, ?_, ?_, ?_, ?_, ?_, ?_, ?_⟩
  · intro inp dir h
    exact inputOnce_shape ["ffmpeg"] ["-c:v", "libvpx-vp9", "-c:a", "libopus",
      "-b:v", "1M", "-b:a", "128k", "-y", outPath dir "converted_basic.webm"]
      inp h
  · intro inp dir h
    exact inputOnce_shape ["ffmpeg"] ["-filter_complex",
      demo_cli_with_filters_filterComplex, "-map", "[v]", "-map", "0:a?",
      "-c:v", "libx264", "-preset", "medium", "-crf", "23", "-c:a", "aac",
      "-y", outPath dir "filtered_cli.mp4"] inp h
  · intro inp dir h
    exact inputOnce_shape ["ffmpeg"] ["-vn", "-acodec", "libmp3lame", "-q:a",
      "2", "-y", outPath dir "extracted_audio.mp3"] inp h
  · intro inp dir h
    exact inputOnce_shape ["ffmpeg"] ["-b:v", "2M", "-b:a", "192k", "-acodec",
      "aac", "-preset", "medium", "-vcodec", "libx264",
      outPath dir "converted_python.mp4", "-y"] inp h
  · intro inp dir h
    exact inputOnce_shape ["ffmpeg"] ["-filter_complex",
      demo_ffmpeg_python_filters_filterComplex, "-map", "[s3]", "-acodec",
      "aac", "-crf", "23", "-vcodec", "libx264",
      outPath dir "filtered_python.mp4", "-y"] inp h
  · intro inp dir s d h
    exact inputOnce_shape ["ffmpeg", "-ss", toString s, "-t", toString d]
      ["-acodec", "copy", "-vcodec", "copy", outPath dir "trimmed.mp4", "-y"]
      inp h
  · intro files dir c f hc hnd hmem hfix
    simp only [List.mem_cons, not_or] at hfix
    obtain ⟨hf1, hf2, hfTail⟩ := hfix
    unfold demo_ffmpeg_python_concat_cmd at hc
    split at hc
    · injection hc with hc
      subst hc
      constructor
      · rw [countOcc_append, countOcc_append, countOcc_flatMap_i files hf2,
          countOcc_nodup_mem hnd hmem, countOcc_eq_zero hfTail,
          countOcc_eq_zero (by simp [hf1] : f ∉ ["ffmpeg"])]
      · exact afterI_append ["ffmpeg"] (afterI_flatMap_mem files _ hmem)
    · exact absurd hc (by simp)
  · intro b o dir hne hb ho
    exact inputOnce_pair ["-filter_complex",
      demo_ffmpeg_python_overlay_filterComplex, "-map", "[s1]", "-acodec",
      "aac", "-vcodec", "libx264", outPath dir "overlay.mp4", "-y"] b o hne hb ho
  · intro inp dir fps h
    exact inputOnce_shape ["ffmpeg"] ["-filter_complex",
      "[0]fps=fps=" ++ toString fps ++ "[s0]", "-map", "[s0]", "-f", "image2",
      "-vcodec", "png", outPath (outPath dir "frames") "frame_%04d.png", "-y"]
      inp h
  · intro inp dir fps h
    exact inputOnce_shape ["ffmpeg", "-framerate", toString fps,
      "-pattern_type", "glob"] ["-crf", "20", "-pix_fmt", "yuv420p", "-vcodec",
      "libx264", outPath dir "from_images.mp4", "-y"] inp h
  · intro b o dir hne hb ho
    exact inputOnce_pair ["-map", "0:v", "-map", "1:a", "-acodec", "aac",
      "-shortest", "-vcodec", "copy", outPath dir "with_audio.mp4", "-y"]
      b o hne hb ho
  · intro inp dir s d h
    exact inputOnce_shape ["ffmpeg", "-ss", toString s, "-t", toString d]
      ["-filter_complex", "[0]fps=fps=10[s0];[s0]scale=480:-1[s1]", "-map", "[s1]",
       "-f", "gif", outPath dir "output.gif", "-y"] inp h
  · intro inp dir h
    exact inputOnce_shape ["ffmpeg"] ["-f", "hls", "-acodec", "aac",
      "-hls_list_size", "0", "-hls_time", "10", "-start_number", "0",
      "-vcodec", "libx264", outPath (outPath dir "hls") "playlist.m3u8", "-y"]
      inp h
  · intro b o dir hne hb ho
    exact inputOnce_pair ["-filter_complex", "[0][1]overlay=x=W-w-10:y=10[s0]",
      "-map", "[s0]", "-acodec", "copy", "-vcodec", "libx264",
      outPath dir "watermarked.mp4", "-y"] b o hne hb ho
  · intro inp dir h
    exact inputOnce_shape ["ffmpeg"] ["-filter_complex",
      "[0]showwaves=colors=blue:mode=line:s=1280x720[s0]", "-map", "[s0]",
      "-acodec", "aac", "-pix_fmt", "yuv420p", "-vcodec", "libx264",
      outPath dir "audio_viz.mp4", "-y"] inp h

/-- Witness for the amended C2 theorem at concrete inputs. -/
theorem input_path_appears_once_amended_witness :
    inputOnce (demo_cli_basic_conversion_cmd "clip.mp4" "out") "clip.mp4" ∧
    inputOnce (demo_cli_with_filters_cmd "clip.mp4" "out") "clip.mp4" ∧
    inputOnce (demo_cli_extract_audio_cmd "clip.mp4" "out") "clip.mp4" ∧
    inputOnce (demo_ffmpeg_python_basic_cmd "clip.mp4" "out") "clip.mp4" ∧
    inputOnce (demo_ffmpeg_python_filters_cmd "clip.mp4" "out") "clip.mp4" ∧
    inputOnce (demo_ffmpeg_python_trim_cmd "clip.mp4" 5 10 "out") "clip.mp4" ∧
    inputOnce (["ffmpeg"] ++ (["a.mp4", "b.mp4"].flatMap (fun f => ["-i", f])) ++
      concatTail 2 "out") "a.mp4" ∧
    inputOnce (demo_ffmpeg_python_overlay_cmd "base.mp4" "over.mp4" "out") "base.mp4" ∧
    inputOnce (demo_ffmpeg_python_overlay_cmd "base.mp4" "over.mp4" "out") "over.mp4" ∧
    inputOnce (demo_extract_frames_cmd "clip.mp4" 1 "out") "clip.mp4" ∧
    inputOnce (demo_create_video_from_images_cmd "frames/img.png" 30 "out")
      "frames/img.png" ∧
    inputOnce (demo_add_audio_to_video_cmd "video.mp4" "audio.mp3" "out") "video.mp4" ∧
    inputOnce (demo_add_audio_to_video_cmd "video.mp4" "audio.mp3" "out") "audio.mp3" ∧
    inputOnce (demo_create_gif_cmd "clip.mp4" 10 5 "out") "clip.mp4" ∧
    inputOnce (demo_streaming_hls_cmd "clip.mp4" "out") "clip.mp4" ∧
    inputOnce (demo_watermark_cmd "clip.mp4" "logo.png" "out") "clip.mp4" ∧
    inputOnce (demo_watermark_cmd "clip.mp4" "logo.png" "out") "logo.png" ∧
    inputOnce (demo_audio_visualization_cmd "audio.mp3" "out") "audio.mp3" := by
  obtain ⟨h1, h2, h3, h4, h5, h6, h7, h8, h9, h10, h11, h12, h13, h14, h15⟩ :=
    input_path_appears_once_amended
  have hov := h8 "base.mp4" "over.mp4" "out" (by decide) (by decide) (by decide)
  have hau := h11 "video.mp4" "audio.mp3" "out" (by decide) (by decide) (by decide)
  have hwm := h14 "clip.mp4" "logo.png" "out" (by decide) (by decide) (by decide)
  exact ⟨h1 "clip.mp4" "out" (by decide), h2 "clip.mp4" "out" (by decide),
    h3 "clip.mp4" "out" (by decide), h4 "clip.mp4" "out" (by decide),
    h5 "clip.mp4" "out" (by decide), h6 "clip.mp4" "out" 5 10 (by decide),
    h7 ["a.mp4", "b.mp4"] "out" _ "a.mp4" (by decide) (by decide) (by decide)
      (by decide),
    hov.1, hov.2, h9 "clip.mp4" "out" 1 (by decide),
    h10 "frames/img.png" "out" 30 (by decide), hau.1, hau.2,
    h12 "clip.mp4" "out" 10 5 (by decide), h13 "clip.mp4" "out" (by decide),
    hwm.1, hwm.2, h15 "audio.mp3" "out" (by decide)⟩

/-- C6: every output-producing operation puts the unconditional overwrite
flag -y into its constructed argument sequence, for all caller inputs; for
concatenation this holds whenever the command is constructed at all. -/
theorem overwrite_flag_always_present :
    ∀ (inp b o pat dir : String) (s d : Int) (fps : Nat)
      (files : List String) (c : List String),
    "-y" ∈ demo_cli_basic_conversion_cmd inp dir ∧
    "-y" ∈ demo_cli_with_filters_cmd inp dir ∧
    "-y" ∈ demo_cli_extract_audio_cmd inp dir ∧
    "-y" ∈ demo_ffmpeg_python_basic_cmd inp dir ∧
    "-y" ∈ demo_ffmpeg_python_filters_cmd inp dir ∧
    "-y" ∈ demo_ffmpeg_python_trim_cmd inp s d dir ∧
    (demo_ffmpeg_python_concat_cmd files dir = some c → "-y" ∈ c) ∧
    "-y" ∈ demo_ffmpeg_python_overlay_cmd b o dir ∧
    "-y" ∈ demo_extract_frames_cmd inp fps dir ∧
    "-y" ∈ demo_create_video_from_images_cmd pat fps dir ∧
    "-y" ∈ demo_add_audio_to_video_cmd b o dir ∧
    "-y" ∈ demo_create_gif_cmd inp s d dir ∧
    "-y" ∈ demo_streaming_hls_cmd inp dir ∧
    "-y" ∈ demo_watermark_cmd inp b dir ∧
    "-y" ∈ demo_audio_visualization_cmd inp dir := by
  intro inp b o pat dir s d fps files c
  refine ⟨by simp [demo_cli_basic_conversion_cmd],
    by simp [demo_cli_with_filters_cmd],
    by simp [demo_cli_extract_audio_cmd],
    by simp [demo_ffmpeg_python_basic_cmd],
    by simp [demo_ffmpeg_python_filters_cmd],
    by simp [demo_ffmpeg_python_trim_cmd], ?_,
    by simp [demo_ffmpeg_python_overlay_cmd],
    by simp [demo_extract_frames_cmd],
    by simp [demo_create_video_from_images_cmd],
    by simp [demo_add_audio_to_video_cmd],
    by simp [demo_create_gif_cmd],
    by simp [demo_streaming_hls_cmd],
    by simp [demo_watermark_cmd],
    by simp [demo_audio_visualization_cmd]⟩
  intro hc
  unfold demo_ffmpeg_python_concat_cmd at hc
  split at hc
  · injection hc with hc
    subst hc
    simp [concatTail]
  · exact absurd hc (by simp)

/-- Witness for the C6 theorem at concrete inputs, including a constructed
concatenation command. -/
theorem overwrite_flag_always_present_witness :
    "-y" ∈ demo_cli_basic_conversion_cmd "clip.mp4" "out" ∧
    "-y" ∈ (["ffmpeg"] ++ (["a.mp4", "b.mp4"].flatMap (fun f => ["-i", f])) ++
      concatTail 2 "out") := by
  have h := overwrite_flag_always_present "clip.mp4" "b.mp4" "o.mp4" "p.png"
    "out" 5 10 30 ["a.mp4", "b.mp4"]
    (["ffmpeg"] ++ (["a.mp4", "b.mp4"].flatMap (fun f => ["-i", f])) ++
      concatTail 2 "out")
  exact ⟨h.1, h.2.2.2.2.2.2.1 (by decide)⟩

set_option maxRecDepth 8192 in
/-- C4 counterexample: on a failing run the extract-audio demo does not
surface the external tool diagnostic text; with stderr boom the printed
message is the generic exception line, which differs from a verbatim
report and does not contain the diagnostic at all. -/
theorem extract_audio_error_not_verbatim :
    demo_cli_extract_audio_report "clip.mp4" "out"
        (.completed ⟨1, "", "boom"⟩) ≠ "✗ Error: " ++ "boom" ++ "\n" ∧
    ¬ "boom".data <:+:
      (demo_cli_extract_audio_report "clip.mp4" "out"
        (.completed ⟨1, "", "boom"⟩)).data := by
  constructor
  · decide
  · decide

/-- C4 (amended): on a non-zero exit status every modelled operation except
the CLI extract-audio demo reports a failure message whose diagnostic
payload is exactly the external stderr text; the extract-audio demo instead
reports the generic CalledProcessError line, which omits stderr. -/
theorem failure_diagnostics_amended (inputFile outputDir : String)
    (r : ProcResult) (h : r.returncode ≠ 0) :
    demo_cli_basic_conversion_report outputDir (.completed r) =
      "✗ Error: " ++ r.stderr ∧
    demo_cli_with_filters_report outputDir (.completed r) =
      "✗ Error: " ++ r.stderr ++ "\n" ∧
    demo_ffmpeg_python_basic_report outputDir r =
      "✗ FFmpeg error: " ++ r.stderr ++ "\n" ∧
    ffmpeg_python_demo_error_report r = "✗ Error: " ++ r.stderr ++ "\n" ∧
    demo_cli_extract_audio_report inputFile outputDir (.completed r) =
      "✗ Error: " ++ calledProcessErrorMsg
        (demo_cli_extract_audio_cmd inputFile outputDir) r.returncode ++ "\n" := by
  refine ⟨?_, ?_, ?_, rfl, ?_⟩
  · simp [demo_cli_basic_conversion_report, h]
  · simp [demo_cli_with_filters_report, h]
  · simp [demo_ffmpeg_python_basic_report, h]
  · simp [demo_cli_extract_audio_report, h]

/-- Witness for the amended C4 theorem at a concrete failing result. -/
theorem failure_diagnostics_amended_witness :
    demo_cli_basic_conversion_report "out" (.completed ⟨1, "", "boom"⟩) =
      "✗ Error: " ++ "boom" ∧
    demo_cli_with_filters_report "out" (.completed ⟨1, "", "boom"⟩) =
      "✗ Error: " ++ "boom" ++ "\n" := by
  have h := failure_diagnostics_amended "clip.mp4" "out" ⟨1, "", "boom"⟩ (by decide)
  exact ⟨h.1, h.2.1⟩

/-- C9: check_ffmpeg_installed is true exactly when the binary is present
and its version command exits with status zero, and an absent binary is
caught and reported as false rather than propagated. -/
theorem check_ffmpeg_installed_spec (env : ExecEnv) :
    (check_ffmpeg_installed env = true ↔
      env.ffmpegInstalled = true ∧ env.versionExitCode = 0) ∧
    (env.ffmpegInstalled = false → check_ffmpeg_installed env = false) := by
  constructor
  · unfold check_ffmpeg_installed
    rcases env with ⟨inst, code⟩
    cases inst <;> simp
  · intro h
    unfold check_ffmpeg_installed
    rw [h]
    rfl

/-- Witness for the C9 theorem at a concrete environment without the
binary. -/
theorem check_ffmpeg_installed_spec_witness :
    check_ffmpeg_installed ⟨false, 7⟩ = false :=
  (check_ffmpeg_installed_spec ⟨false, 7⟩).2 rfl

/-- C5: with the binary absent, the run emits the not-installed warning
exactly once, launches no external command beyond the version check, and
neither reads nor writes any output file. -/
theorem missing_binary_single_signal (env : ExecEnv)
    (h : env.ffmpegInstalled = false) :
    countOcc (mainEffects env) (Effect.consoleOut notInstalledMsg) = 1 ∧
    (∀ p, Effect.writeOutputFile p ∉ mainEffects env) ∧
    (∀ p, Effect.readOutputFile p ∉ mainEffects env) ∧
    (∀ c, Effect.runExternal c ∈ mainEffects env → c = ["ffmpeg", "-version"]) := by
  have hc : check_ffmpeg_installed env = false := by
    unfold check_ffmpeg_installed
    rw [h]
    rfl
  refine ⟨?_, ?_, ?_, ?_⟩
  · simp [mainEffects, hc, countOcc, notInstalledMsg]
  · intro p
    simp [mainEffects, hc]
  · intro p
    simp [mainEffects, hc]
  · intro c hm
    simp [mainEffects, hc] at hm
    exact hm

/-- Witness for the C5 theorem at a concrete environment without the
binary. -/
theorem missing_binary_single_signal_witness :
    countOcc (mainEffects ⟨false, 0⟩) (Effect.consoleOut notInstalledMsg) = 1 ∧
    Effect.writeOutputFile "ffmpeg_output/converted_basic.webm" ∉
      mainEffects ⟨false, 0⟩ := by
  have h := missing_binary_single_signal ⟨false, 0⟩ rfl
  exact ⟨h.1, h.2.1 "ffmpeg_output/converted_basic.webm"⟩

theorem countOcc_ne_zero_of_mem {α : Type} [DecidableEq α] {l : List α} {s : α}
    (h : s ∈ l) : countOcc l s ≠ 0 := by
  induction l with
  | nil => cases h
  | cons a t ih =>
    rcases List.mem_cons.mp h with h1 | h2
    · subst h1
      simp [countOcc]
    · simp only [countOcc]
      have := ih h2
      omega

/-- C7: creating the output directory is idempotent.  If constructing the
runner succeeds on a file system that holds the directory at most once,
then constructing it again on the resulting file system succeeds without
changing anything, the directory exists afterwards (so a missing directory
was created), and it is present exactly once. -/
theorem output_dir_creation_idempotent (fs : FileSystem) (p : String)
    (fs1 : FileSystem) (hcount : countOcc fs.dirs p ≤ 1)
    (h : ffmpegMasterclassInit fs p = .ok fs1) :
    ffmpegMasterclassInit fs1 p = .ok fs1 ∧
    p ∈ fs1.dirs ∧
    countOcc fs1.dirs p = 1 := by
  unfold ffmpegMasterclassInit mkdirExistOk at h ⊢
  by_cases hd : p ∈ fs.dirs
  · rw [if_pos hd] at h
    injection h with h
    subst h
    have hpos : countOcc fs.dirs p ≠ 0 := countOcc_ne_zero_of_mem hd
    refine ⟨by rw [if_pos hd], hd, by omega⟩
  · rw [if_neg hd] at h
    by_cases hf : p ∈ fs.files
    · rw [if_pos hf] at h
      cases h
    · rw [if_neg hf] at h
      injection h with h
      subst h
      refine ⟨by simp, by simp, ?_⟩
      simp [countOcc, countOcc_eq_zero hd]

/-- Witness for the C7 theorem: constructing the runner on an empty file
system and then again on the result. -/
theorem output_dir_creation_idempotent_witness :
    ffmpegMasterclassInit ⟨["ffmpeg_output"], []⟩ "ffmpeg_output" =
      .ok ⟨["ffmpeg_output"], []⟩ ∧
    "ffmpeg_output" ∈ (⟨["ffmpeg_output"], []⟩ : FileSystem).dirs ∧
    countOcc (⟨["ffmpeg_output"], []⟩ : FileSystem).dirs "ffmpeg_output" = 1 :=
  output_dir_creation_idempotent ⟨[], []⟩ "ffmpeg_output"
    ⟨["ffmpeg_output"], []⟩ (by decide) (by decide)

/-- C8 counterexample: a probe result whose video stream carries the
frame-rate string 0/0 (a value the external tool can return) makes the
display computation fail instead of completing as a read-only key-lookup
display, so the claim is false for that probe result. -/
theorem probe_display_not_total_counterexample :
    demo_ffmpeg_python_probe_display
      ⟨⟨"QuickTime / MOV", "10.000000", "1048576", "800000"⟩,
       [⟨"video", "h264", 1280, 720, some "0/0", some "yuv420p", "", 0, none⟩]⟩ =
      none := by
  decide

/-- C8 (amended): the probe demo is pure key-lookup display whenever the
frame-rate evaluation succeeds: if the first video stream carries a
frame-rate string that evaluates to a rational (in particular any fraction
with nonzero denominator), or if there is no video stream, the display
completes and returns its lines. -/
theorem probe_display_keylookup_amended :
    (∀ (p : ProbeData) (v : ProbeStream) (q : Rat),
        p.streams.find? (fun s => s.codec_type == "video") = some v →
        evalFractionString (v.r_frame_rate.getD "0/1") = some q →
        ∃ lines, demo_ffmpeg_python_probe_display p = some lines) ∧
    (∀ p : ProbeData,
        p.streams.find? (fun s => s.codec_type == "video") = none →
        ∃ lines, demo_ffmpeg_python_probe_display p = some lines) := by
  constructor
  · intro p v q hfind heval
    refine ⟨probeFormatLines p.format ++ probeVideoLines v q ++
      probeAudioLines (p.streams.find? (fun s => s.codec_type == "audio")), ?_⟩
    unfold demo_ffmpeg_python_probe_display
    rw [hfind]
    show (match evalFractionString (v.r_frame_rate.getD "0/1") with
      | none => none
      | some fps =>
          some (probeFormatLines p.format ++ probeVideoLines v fps ++
            probeAudioLines (p.streams.find? (fun s => s.codec_type == "audio")))) =
      some (probeFormatLines p.format ++ probeVideoLines v q ++
        probeAudioLines (p.streams.find? (fun s => s.codec_type == "audio")))
    rw [heval]
  · intro p hfind
    unfold demo_ffmpeg_python_probe_display
    rw [hfind]
    exact ⟨_, rfl⟩

/-- Witness for the amended C8 theorem at a concrete probe result with the
frame-rate fraction 30/1. -/
theorem probe_display_keylookup_amended_witness :
    ∃ lines, demo_ffmpeg_python_probe_display
      ⟨⟨"QuickTime / MOV", "10.000000", "1048576", "800000"⟩,
       [⟨"video", "h264", 1280, 720, some "30/1", some "yuv420p", "", 0, none⟩]⟩ =
      some lines :=
  probe_display_keylookup_amended.1
    ⟨⟨"QuickTime / MOV", "10.000000", "1048576", "800000"⟩,
     [⟨"video", "h264", 1280, 720, some "30/1", some "yuv420p", "", 0, none⟩]⟩
    ⟨"video", "h264", 1280, 720, some "30/1", some "yuv420p", "", 0, none⟩
    (((30 : Int) : Rat) / ((1 : Int) : Rat)) rfl rfl

/-- C10: get_video_info never fails: a failed probe returns the empty
result, and a successful probe returns the probe format record plus three
lists such that a stream record belongs to a list exactly when its
codec_type matches, each list is an order-preserving selection of the
original stream list, and a stream of any other codec_type belongs to none
of the lists. -/
theorem get_video_info_partition :
    get_video_info none = VideoInfo.empty ∧
    (∀ (p : ProbeData) (f : ProbeFormat) (v a st : List ProbeStream),
      get_video_info (some p) = .info f v a st →
      f = p.format ∧
      (∀ s, s ∈ v ↔ s ∈ p.streams ∧ s.codec_type = "video") ∧
      (∀ s, s ∈ a ↔ s ∈ p.streams ∧ s.codec_type = "audio") ∧
      (∀ s, s ∈ st ↔ s ∈ p.streams ∧ s.codec_type = "subtitle") ∧
      v.Sublist p.streams ∧ a.Sublist p.streams ∧ st.Sublist p.streams ∧
      (∀ s, s ∈ p.streams → s.codec_type ≠ "video" → s.codec_type ≠ "audio" →
        s.codec_type ≠ "subtitle" → s ∉ v ∧ s ∉ a ∧ s ∉ st)) := by
  constructor
  · rfl
  · intro p f v a st h
    simp only [get_video_info, VideoInfo.info.injEq] at h
    obtain ⟨hf, hv, ha, hst⟩ := h
    subst hf hv ha hst
    refine ⟨rfl, ?_, ?_, ?_, List.filter_sublist _, List.filter_sublist _,
      List.filter_sublist _, ?_⟩
    · intro s
      simp [List.mem_filter]
    · intro s
      simp [List.mem_filter]
    · intro s
      simp [List.mem_filter]
    · intro s hs h1 h2 h3
      refine ⟨?_, ?_, ?_⟩
      · simp [List.mem_filter, h1]
      · simp [List.mem_filter, h2]
      · simp [List.mem_filter, h3]

/-- Witness for the C10 theorem at a concrete probe with a video, an
audio and a data stream: the video stream lands in the video list. -/
theorem get_video_info_partition_witness :
    (⟨"video", "h264", 1280, 720, some "30/1", some "yuv420p", "", 0, none⟩ :
      ProbeStream) ∈
      ([⟨"video", "h264", 1280, 720, some "30/1", some "yuv420p", "", 0, none⟩] :
        List ProbeStream) := by
  have h := get_video_info_partition.2
    ⟨⟨"QuickTime / MOV", "10.000000", "1048576", "800000"⟩,
     [⟨"video", "h264", 1280, 720, some "30/1", some "yuv420p", "", 0, none⟩,
      ⟨"audio", "aac", 0, 0, none, none, "48000", 2, some "128000"⟩,
      ⟨"data", "bin", 0, 0, none, none, "", 0, none⟩]⟩
    ⟨"QuickTime / MOV", "10.000000", "1048576", "800000"⟩
    [⟨"video", "h264", 1280, 720, some "30/1", some "yuv420p", "", 0, none⟩]
    [⟨"audio", "aac", 0, 0, none, none, "48000", 2, some "128000"⟩]
    [] (by decide)
  exact (h.2.1 ⟨"video", "h264", 1280, 720, some "30/1", some "yuv420p", "", 0,
    none⟩).mpr ⟨by simp, rfl⟩
